import Mathlib

/- Shallow embedding of the fee-delegate-bridge contracts and proofs about
   their authorization, trigger, ledger and order-consumption behavior.

   Sources embedded:
   - src/src/Agent.sol            : contract Agent (gas-triggered bridge)
   - src/unnamed/part_014         : contract LimitOrderAgent (mock-DEX variant)
   - src/unnamed/part_013         : contract LimitOrderAgent (Ambient variant)

   Conventions of the embedding:
   - Addresses are Nat (0 is address zero).
   - uint256 balances are stored as Int so that the non-negativity
     invariant is a real statement; every subtraction in the source is
     guarded by a require, which the embedding mirrors, so the Int model
     agrees with checked uint256 arithmetic on all reachable states.
   - Each external function becomes a Lean function from a state plus the
     call context (msg.sender, msg.value, block.timestamp) to the
     post-state paired with an optional error.  A require that fails
     stops execution at that point and reports the error; since the
     source performs no storage write before any of its requires, the
     reported post-state equals the pre-state on every failure, which is
     exactly the revert behavior.
   - External collaborators (LayerZero quote result, ERC20 transfer
     outcome, Ambient swap output, oracle price) enter as parameters;
     outgoing external calls are recorded in an ordered action trace so
     that ordering facts (debit before send, no token call) are statable. -/

abbrev Addr := Nat

/-- Pointwise map update, used for Solidity mappings. -/
def upd {κ α : Type} [DecidableEq κ] (f : κ → α) (k : κ) (v : α) : κ → α :=
  fun x => if x = k then v else f x

/-- Update of a two-level mapping. -/
def upd2 {κ₁ κ₂ α : Type} [DecidableEq κ₁] [DecidableEq κ₂]
    (f : κ₁ → κ₂ → α) (k₁ : κ₁) (k₂ : κ₂) (v : α) : κ₁ → κ₂ → α :=
  upd f k₁ (upd (f k₁) k₂ v)

/- ===================== Agent.sol ===================== -/

/-- Storage of contract Agent (src/src/Agent.sol): gasThresholds,
    authorizedSessions, sessionAuthorizedAt, deposits.  The deprecated
    delegation storage is omitted: it is written only by the deprecated
    entry points and read by none of the functions treated here. -/
structure AgentState where
  gasThresholds : Addr → Nat
  authorizedSessions : Addr → Addr → Bool
  sessionAuthorizedAt : Addr → Addr → Nat
  deposits : Addr → Int

/-- Named revert reasons of Agent.sol, one per require string. -/
inductive AgentErr where
  | thresholdNotPositive
  | zeroDepositAmount
  | zeroWithdrawAmount
  | insufficientBalance
  | invalidSessionAddress
  | selfAuthorization
  | sessionNotAuthorized
  | noTrigger
  | callerNotAuthorized
  | insufficientDeposit
  | insufficientFee
  deriving DecidableEq

/-- Agent.sol setGasThreshold: require threshold > 0, then store. -/
def Agent.setGasThreshold (st : AgentState) (sender : Addr) (threshold : Nat) :
    AgentState × Option AgentErr :=
  if 0 < threshold then
    ({ st with gasThresholds := upd st.gasThresholds sender threshold }, none)
  else (st, some .thresholdNotPositive)

/-- Agent.sol deposit: require msg.value > 0, then credit the sender. -/
def Agent.deposit (st : AgentState) (sender : Addr) (msgValue : Nat) :
    AgentState × Option AgentErr :=
  if 0 < msgValue then
    ({ st with deposits := upd st.deposits sender (st.deposits sender + msgValue) }, none)
  else (st, some .zeroDepositAmount)

/-- Agent.sol withdraw: require amount > 0, require balance covers amount,
    then debit and pay out (the payout is an external transfer whose
    failure would revert; it performs no storage write). -/
def Agent.withdraw (st : AgentState) (sender : Addr) (amount : Nat) :
    AgentState × Option AgentErr :=
  if 0 < amount then
    if (amount : Int) ≤ st.deposits sender then
      ({ st with deposits := upd st.deposits sender (st.deposits sender - amount) }, none)
    else (st, some .insufficientBalance)
  else (st, some .zeroWithdrawAmount)

/-- Agent.sol authorizeSession: reject the zero address and
    self-authorization, then set the grant and stamp the time. -/
def Agent.authorizeSession (st : AgentState) (sender sessionAcct : Addr)
    (timestamp : Nat) : AgentState × Option AgentErr :=
  if sessionAcct = 0 then (st, some .invalidSessionAddress)
  else if sessionAcct = sender then (st, some .selfAuthorization)
  else
    ({ st with
        authorizedSessions := upd2 st.authorizedSessions sender sessionAcct true,
        sessionAuthorizedAt := upd2 st.sessionAuthorizedAt sender sessionAcct timestamp }, none)

/-- Agent.sol revokeSession: require an existing true grant, then clear it. -/
def Agent.revokeSession (st : AgentState) (sender sessionAcct : Addr) :
    AgentState × Option AgentErr :=
  if st.authorizedSessions sender sessionAcct then
    ({ st with authorizedSessions := upd2 st.authorizedSessions sender sessionAcct false }, none)
  else (st, some .sessionNotAuthorized)

/-- Agent.sol getMockGas: fixed 50 gwei mock reading. -/
def Agent.getMockGas : Nat := 50

/-- Agent.sol checkGas: current reading plus the trigger bit
    (threshold set AND reading strictly below threshold). -/
def Agent.checkGas (st : AgentState) (user : Addr) : Nat × Bool :=
  (Agent.getMockGas,
   decide (0 < st.gasThresholds user) && decide (Agent.getMockGas < st.gasThresholds user))

/-- Agent.sol: fixed bridged amount, 0.1 ether in wei. -/
def amountToBridge : Nat := 10 ^ 17

/-- Ordered external effects of checkGasAndBridge. -/
inductive BridgeAction where
  | debit (user : Addr) (amount : Nat)
  | lzSend (dstEid : Nat) (fee : Nat)
  | refund (dest : Addr) (amount : Nat)
  deriving DecidableEq

/-- Agent.sol checkGasAndBridge, in source order: trigger check, then
    session-authorization check (note: no msg.sender == user escape),
    then funds check, then fee check against the quoted nativeFee
    (external quote result passed as a parameter), then the debit,
    then lzSend, then refund of any excess fee. -/
def Agent.checkGasAndBridge (st : AgentState) (sender : Addr) (msgValue : Nat)
    (user : Addr) (nativeFee : Nat) :
    AgentState × List BridgeAction × Option AgentErr :=
  if (Agent.checkGas st user).2 then
    if st.authorizedSessions user sender then
      if (amountToBridge : Int) ≤ st.deposits user then
        if nativeFee ≤ msgValue then
          ({ st with deposits := upd st.deposits user (st.deposits user - amountToBridge) },
           [BridgeAction.debit user amountToBridge, BridgeAction.lzSend 40204 nativeFee] ++
             (if 0 < msgValue - nativeFee then [BridgeAction.refund sender (msgValue - nativeFee)] else []),
           none)
        else (st, [], some .insufficientFee)
      else (st, [], some .insufficientDeposit)
    else (st, [], some .callerNotAuthorized)
  else (st, [], some .noTrigger)

/- ===================== LimitOrderAgent, part_014 (mock-DEX variant) ===================== -/

/-- LimitOrder struct shared by both LimitOrderAgent variants. -/
structure LimitOrder where
  user : Addr
  tokenIn : Addr
  tokenOut : Addr
  amountIn : Nat
  limitPrice : Nat
  expiresAt : Nat
  isActive : Bool
  isBuy : Bool
  deriving DecidableEq

/-- Default value of the orders mapping: all-zero struct. -/
def LimitOrder.zero : LimitOrder :=
  { user := 0, tokenIn := 0, tokenOut := 0, amountIn := 0, limitPrice := 0,
    expiresAt := 0, isActive := false, isBuy := false }

/-- Storage of the part_014 LimitOrderAgent. -/
structure LOAState where
  owner : Addr
  mockPrice : Nat
  orders : Addr → Nat → LimitOrder
  orderCount : Addr → Nat
  authorizedSessions : Addr → Addr → Bool
  deposits : Addr → Addr → Int
  totalOrdersCreated : Nat
  totalOrdersExecuted : Nat

/-- Named revert reasons of the part_014 LimitOrderAgent. -/
inductive LOAErr where
  | zeroAmount
  | transferFailed
  | insufficientBalance
  | invalidPrice
  | invalidExpiration
  | insufficientDeposit
  | orderNotActive
  | notYourOrder
  | invalidAddress
  | selfAuthorization
  | sessionNotAuthorized
  | notAuthorized
  | orderExpired
  | priceConditionNotMet
  | onlyOwner
  deriving DecidableEq

/-- Outgoing external calls of the part_014 contract, in program order. -/
inductive LOAAction where
  | tokenTransferFrom (token source dest : Addr) (amount : Nat)
  | tokenTransfer (token dest : Addr) (amount : Nat)
  | nativeTransfer (dest : Addr) (amount : Nat)
  deriving DecidableEq

/-- The 0xEeee... sentinel address for native ETH used by part_014 withdraw. -/
def eeeAddr : Addr := 0xEeeeeEeeeEeEeeEeEeEeeEEEeeeeEeeeeeeeEEeE

/-- part_014 deposit: require amount > 0; when msg.value > 0 credit
    msg.value to the (sender, token) slot and return without any token
    call; otherwise call transferFrom on the token (its success is the
    transferOk parameter) and credit amount. -/
def LOA.deposit (st : LOAState) (sender : Addr) (msgValue : Nat)
    (token : Addr) (amount : Nat) (transferOk : Bool) :
    LOAState × List LOAAction × Option LOAErr :=
  if 0 < amount then
    if 0 < msgValue then
      ({ st with deposits := upd2 st.deposits sender token (st.deposits sender token + msgValue) },
       [], none)
    else
      if transferOk then
        ({ st with deposits := upd2 st.deposits sender token (st.deposits sender token + amount) },
         [LOAAction.tokenTransferFrom token sender 0 amount], none)
      else (st, [LOAAction.tokenTransferFrom token sender 0 amount], some .transferFailed)
  else (st, [], some .zeroAmount)

/-- part_014 receive: unconditionally credit msg.value to (sender, address 0). -/
def LOA.receiveEth (st : LOAState) (sender : Addr) (msgValue : Nat) : LOAState :=
  { st with deposits := upd2 st.deposits sender 0 (st.deposits sender 0 + msgValue) }

/-- part_014 withdraw: require balance covers amount (checked first in the
    source), require amount > 0, debit, then pay out natively for the two
    ETH sentinels or via the token otherwise. -/
def LOA.withdraw (st : LOAState) (sender : Addr) (token : Addr) (amount : Nat) :
    LOAState × List LOAAction × Option LOAErr :=
  if (amount : Int) ≤ st.deposits sender token then
    if 0 < amount then
      ({ st with deposits := upd2 st.deposits sender token (st.deposits sender token - amount) },
       if token = 0 ∨ token = eeeAddr then [LOAAction.nativeTransfer sender amount]
       else [LOAAction.tokenTransfer token sender amount],
       none)
    else (st, [], some .zeroAmount)
  else (st, [], some .insufficientBalance)

/-- part_014 createLimitOrder: require amountIn > 0, limitPrice > 0,
    0 < daysValid <= 365, deposit covers amountIn; then assign the next
    order id, store the order active with expiry now + daysValid days,
    lock amountIn by debiting the (sender, tokenIn) deposit, and count it. -/
def LOA.createLimitOrder (st : LOAState) (sender : Addr) (timestamp : Nat)
    (tokenIn tokenOut : Addr) (amountIn limitPrice daysValid : Nat) (isBuy : Bool) :
    LOAState × Option Nat × Option LOAErr :=
  if 0 < amountIn then
    if 0 < limitPrice then
      if 0 < daysValid ∧ daysValid ≤ 365 then
        if (amountIn : Int) ≤ st.deposits sender tokenIn then
          ({ st with
              orderCount := upd st.orderCount sender (st.orderCount sender + 1),
              orders := upd2 st.orders sender (st.orderCount sender)
                { user := sender, tokenIn := tokenIn, tokenOut := tokenOut,
                  amountIn := amountIn, limitPrice := limitPrice,
                  expiresAt := timestamp + daysValid * 86400,
                  isActive := true, isBuy := isBuy },
              deposits := upd2 st.deposits sender tokenIn (st.deposits sender tokenIn - amountIn),
              totalOrdersCreated := st.totalOrdersCreated + 1 },
           some (st.orderCount sender), none)
        else (st, none, some .insufficientDeposit)
      else (st, none, some .invalidExpiration)
    else (st, none, some .invalidPrice)
  else (st, none, some .zeroAmount)

/-- part_014 cancelLimitOrder: require active, require owned by the
    sender, mark inactive, refund the locked amountIn. -/
def LOA.cancelLimitOrder (st : LOAState) (sender : Addr) (orderId : Nat) :
    LOAState × Option LOAErr :=
  if (st.orders sender orderId).isActive then
    if (st.orders sender orderId).user = sender then
      ({ st with
          orders := upd2 st.orders sender orderId { st.orders sender orderId with isActive := false },
          deposits := upd2 st.deposits sender (st.orders sender orderId).tokenIn
            (st.deposits sender (st.orders sender orderId).tokenIn +
              (st.orders sender orderId).amountIn) },
       none)
    else (st, some .notYourOrder)
  else (st, some .orderNotActive)

/-- part_014 authorizeSession: reject the zero address and
    self-authorization, then set the grant. -/
def LOA.authorizeSession (st : LOAState) (sender sessionAcct : Addr) :
    LOAState × Option LOAErr :=
  if sessionAcct = 0 then (st, some .invalidAddress)
  else if sessionAcct = sender then (st, some .selfAuthorization)
  else
    ({ st with authorizedSessions := upd2 st.authorizedSessions sender sessionAcct true }, none)

/-- part_014 revokeSession: require an existing true grant, then clear it. -/
def LOA.revokeSession (st : LOAState) (sender sessionAcct : Addr) :
    LOAState × Option LOAErr :=
  if st.authorizedSessions sender sessionAcct then
    ({ st with authorizedSessions := upd2 st.authorizedSessions sender sessionAcct false }, none)
  else (st, some .sessionNotAuthorized)

/-- part_014 getCurrentPrice: the stored mock price, for any token pair. -/
def LOA.getCurrentPrice (st : LOAState) (_tokenIn _tokenOut : Addr) : Nat :=
  st.mockPrice

/-- part_014 _mockSwap: amountIn * price * 98 / (100 * 1e18). -/
def LOA.mockSwap (amountIn price : Nat) : Nat :=
  amountIn * price * 98 / (100 * 10 ^ 18)

/-- The per-order price condition shared by both variants:
    buy executes at price <= limit, sell at price >= limit. -/
def priceConditionMet (o : LimitOrder) (price : Nat) : Bool :=
  if o.isBuy then decide (price ≤ o.limitPrice) else decide (o.limitPrice ≤ price)

/-- part_014 executeLimitOrder, in source order: authorization (grant or
    caller == user), order active, not expired, price condition; then mark
    the order inactive, credit the mock-swap output to (user, tokenOut)
    and bump the executed counter. -/
def LOA.executeLimitOrder (st : LOAState) (sender : Addr) (timestamp : Nat)
    (user : Addr) (orderId : Nat) : LOAState × Option LOAErr :=
  if st.authorizedSessions user sender = true ∨ sender = user then
    if (st.orders user orderId).isActive then
      if timestamp < (st.orders user orderId).expiresAt then
        if priceConditionMet (st.orders user orderId)
            (LOA.getCurrentPrice st (st.orders user orderId).tokenIn
              (st.orders user orderId).tokenOut) then
          ({ st with
              orders := upd2 st.orders user orderId
                { st.orders user orderId with isActive := false },
              deposits := upd2 st.deposits user (st.orders user orderId).tokenOut
                (st.deposits user (st.orders user orderId).tokenOut +
                  (LOA.mockSwap (st.orders user orderId).amountIn
                    (LOA.getCurrentPrice st (st.orders user orderId).tokenIn
                      (st.orders user orderId).tokenOut) : Int)),
              totalOrdersExecuted := st.totalOrdersExecuted + 1 },
           none)
        else (st, some .priceConditionNotMet)
      else (st, some .orderExpired)
    else (st, some .orderNotActive)
  else (st, some .notAuthorized)

/-- part_014 setMockPrice: owner-only price update. -/
def LOA.setMockPrice (st : LOAState) (sender : Addr) (newPrice : Nat) :
    LOAState × Option LOAErr :=
  if sender = st.owner then ({ st with mockPrice := newPrice }, none)
  else (st, some .onlyOwner)

/- ===================== LimitOrderAgent, part_013 (Ambient variant) ===================== -/

/-- Storage of the part_013 LimitOrderAgent (Ambient variant). -/
structure L13State where
  owner : Addr
  priceOracle : Addr
  orders : Addr → Nat → LimitOrder
  orderCount : Addr → Nat
  authorizedSessions : Addr → Addr → Bool
  deposits : Addr → Addr → Int

/-- Named revert reasons of the part_013 LimitOrderAgent. -/
inductive L13Err where
  | zeroAmount
  | transferFailed
  | invalidPrice
  | insufficientDeposit
  | orderNotActive
  | notYourOrder
  | invalidAddress
  | selfAuthorization
  | notAuthorized
  | orderExpired
  | priceConditionNotMet
  deriving DecidableEq

/-- part_013 deposit: require amount > 0, then transferFrom on the token
    (success passed as a parameter) and credit amount. -/
def L13.deposit (st : L13State) (sender : Addr) (token : Addr) (amount : Nat)
    (transferOk : Bool) : L13State × Option L13Err :=
  if 0 < amount then
    if transferOk then
      ({ st with deposits := upd2 st.deposits sender token (st.deposits sender token + amount) },
       none)
    else (st, some .transferFailed)
  else (st, some .zeroAmount)

/-- part_013 createLimitOrder: require amountIn > 0, limitPrice > 0 and a
    covering deposit -- there is NO bound on daysValid in this variant --
    then assign the next id, store the order active with expiry
    now + daysValid days and lock amountIn. -/
def L13.createLimitOrder (st : L13State) (sender : Addr) (timestamp : Nat)
    (tokenIn tokenOut : Addr) (amountIn limitPrice daysValid : Nat) (isBuy : Bool) :
    L13State × Option Nat × Option L13Err :=
  if 0 < amountIn then
    if 0 < limitPrice then
      if (amountIn : Int) ≤ st.deposits sender tokenIn then
        ({ st with
            orderCount := upd st.orderCount sender (st.orderCount sender + 1),
            orders := upd2 st.orders sender (st.orderCount sender)
              { user := sender, tokenIn := tokenIn, tokenOut := tokenOut,
                amountIn := amountIn, limitPrice := limitPrice,
                expiresAt := timestamp + daysValid * 86400,
                isActive := true, isBuy := isBuy },
            deposits := upd2 st.deposits sender tokenIn (st.deposits sender tokenIn - amountIn) },
         some (st.orderCount sender), none)
      else (st, none, some .insufficientDeposit)
    else (st, none, some .invalidPrice)
  else (st, none, some .zeroAmount)

/-- part_013 cancelLimitOrder: require active and owned, mark inactive,
    refund the locked amountIn. -/
def L13.cancelLimitOrder (st : L13State) (sender : Addr) (orderId : Nat) :
    L13State × Option L13Err :=
  if (st.orders sender orderId).isActive then
    if (st.orders sender orderId).user = sender then
      ({ st with
          orders := upd2 st.orders sender orderId { st.orders sender orderId with isActive := false },
          deposits := upd2 st.deposits sender (st.orders sender orderId).tokenIn
            (st.deposits sender (st.orders sender orderId).tokenIn +
              (st.orders sender orderId).amountIn) },
       none)
    else (st, some .notYourOrder)
  else (st, some .orderNotActive)

/-- part_013 authorizeSession: reject the zero address and
    self-authorization, then set the grant. -/
def L13.authorizeSession (st : L13State) (sender sessionAcct : Addr) :
    L13State × Option L13Err :=
  if sessionAcct = 0 then (st, some .invalidAddress)
  else if sessionAcct = sender then (st, some .selfAuthorization)
  else
    ({ st with authorizedSessions := upd2 st.authorizedSessions sender sessionAcct true }, none)

/-- part_013 revokeSession: NO require at all -- it unconditionally writes
    false, so revoking an ungranted session is a silent no-op here. -/
def L13.revokeSession (st : L13State) (sender sessionAcct : Addr) :
    L13State × Option L13Err :=
  ({ st with authorizedSessions := upd2 st.authorizedSessions sender sessionAcct false }, none)

/-- part_013 getCurrentPrice: fixed 3000e18 when no oracle is configured,
    otherwise the external oracle reading (passed as a parameter). -/
def L13.getCurrentPrice (st : L13State) (oraclePrice : Nat) : Nat :=
  if st.priceOracle = 0 then 3000 * 10 ^ 18 else oraclePrice

/-- part_013 executeLimitOrder, in source order: authorization (grant or
    caller == user), order active, not expired, price condition; then mark
    the order inactive, run the Ambient swap (its output swapOut is an
    external result passed as a parameter) and credit (user, tokenOut). -/
def L13.executeLimitOrder (st : L13State) (sender : Addr) (timestamp : Nat)
    (user : Addr) (orderId : Nat) (oraclePrice swapOut : Nat) :
    L13State × Option L13Err :=
  if st.authorizedSessions user sender = true ∨ sender = user then
    if (st.orders user orderId).isActive then
      if timestamp < (st.orders user orderId).expiresAt then
        if priceConditionMet (st.orders user orderId) (L13.getCurrentPrice st oraclePrice) then
          ({ st with
              orders := upd2 st.orders user orderId
                { st.orders user orderId with isActive := false },
              deposits := upd2 st.deposits user (st.orders user orderId).tokenOut
                (st.deposits user (st.orders user orderId).tokenOut + (swapOut : Int)) },
           none)
        else (st, some .priceConditionNotMet)
      else (st, some .orderExpired)
    else (st, some .orderNotActive)
  else (st, some .notAuthorized)

/- ===================== Operation sequences and the balance invariant ===================== -/

/-- One external call to contract Agent, with its call context. -/
inductive AgentOp where
  | setThreshold (sender : Addr) (t : Nat)
  | deposit (sender : Addr) (v : Nat)
  | withdraw (sender : Addr) (a : Nat)
  | authorize (sender s : Addr) (ts : Nat)
  | revoke (sender s : Addr)
  | bridge (sender : Addr) (v : Nat) (user : Addr) (fee : Nat)

/-- State reached after one Agent call (failed calls leave it unchanged). -/
def AgentStep (st : AgentState) : AgentOp → AgentState
  | .setThreshold s t => (Agent.setGasThreshold st s t).1
  | .deposit s v => (Agent.deposit st s v).1
  | .withdraw s a => (Agent.withdraw st s a).1
  | .authorize s x ts => (Agent.authorizeSession st s x ts).1
  | .revoke s x => (Agent.revokeSession st s x).1
  | .bridge s v u fee => (Agent.checkGasAndBridge st s v u fee).1

/-- State reached after a sequence of Agent calls. -/
def AgentRun (st : AgentState) (ops : List AgentOp) : AgentState :=
  ops.foldl AgentStep st

/-- Every deposit balance of contract Agent is non-negative. -/
def AgentInv (st : AgentState) : Prop :=
  ∀ a, 0 ≤ st.deposits a

/-- One external call to the part_014 LimitOrderAgent, with its context. -/
inductive LOAOp where
  | deposit (sender : Addr) (v : Nat) (token : Addr) (amount : Nat) (ok : Bool)
  | withdraw (sender token : Addr) (amount : Nat)
  | create (sender : Addr) (ts : Nat) (tokenIn tokenOut : Addr)
      (amountIn limitPrice daysValid : Nat) (isBuy : Bool)
  | cancel (sender : Addr) (orderId : Nat)
  | authorize (sender s : Addr)
  | revoke (sender s : Addr)
  | execute (sender : Addr) (ts : Nat) (user : Addr) (orderId : Nat)
  | recv (sender : Addr) (v : Nat)
  | setPrice (sender : Addr) (p : Nat)

/-- State reached after one part_014 call. -/
def LOAStep (st : LOAState) : LOAOp → LOAState
  | .deposit s v tk a ok => (LOA.deposit st s v tk a ok).1
  | .withdraw s tk a => (LOA.withdraw st s tk a).1
  | .create s ts ti to_ ai lp dv b => (LOA.createLimitOrder st s ts ti to_ ai lp dv b).1
  | .cancel s oid => (LOA.cancelLimitOrder st s oid).1
  | .authorize s x => (LOA.authorizeSession st s x).1
  | .revoke s x => (LOA.revokeSession st s x).1
  | .execute s ts u oid => (LOA.executeLimitOrder st s ts u oid).1
  | .recv s v => LOA.receiveEth st s v
  | .setPrice s p => (LOA.setMockPrice st s p).1

/-- State reached after a sequence of part_014 calls. -/
def LOARun (st : LOAState) (ops : List LOAOp) : LOAState :=
  ops.foldl LOAStep st

/-- Every (user, token) deposit balance of part_014 is non-negative. -/
def LOAInv (st : LOAState) : Prop :=
  ∀ a t, 0 ≤ st.deposits a t

/- ===================== Concrete states used by witnesses ===================== -/

/-- Fresh Agent storage: all mappings at their default values. -/
def agentInit : AgentState :=
  { gasThresholds := fun _ => 0, authorizedSessions := fun _ _ => false,
    sessionAuthorizedAt := fun _ _ => 0, deposits := fun _ => 0 }

/-- Agent storage where user 1 set threshold 100 (the mock 50 gwei
    reading is below it, so the trigger fires), authorized session 2 at
    time 5 and deposited 0.2 ether. -/
def agentDemo : AgentState :=
  { gasThresholds := upd (fun _ => 0) 1 100,
    authorizedSessions := upd2 (fun _ _ => false) 1 2 true,
    sessionAuthorizedAt := upd2 (fun _ _ => 0) 1 2 5,
    deposits := upd (fun _ => 0) 1 (2 * 10 ^ 17) }

/-- Agent storage where user 1 set threshold 100 and deposited 1 ether
    but granted no session. -/
def agentSelf : AgentState :=
  { gasThresholds := upd (fun _ => 0) 1 100,
    authorizedSessions := fun _ _ => false,
    sessionAuthorizedAt := fun _ _ => 0,
    deposits := upd (fun _ => 0) 1 (10 ^ 18) }

/-- Fresh part_014 storage with the deployed mock price of 3000e18. -/
def loaInit : LOAState :=
  { owner := 0, mockPrice := 3000 * 10 ^ 18,
    orders := fun _ _ => LimitOrder.zero, orderCount := fun _ => 0,
    authorizedSessions := fun _ _ => false, deposits := fun _ _ => 0,
    totalOrdersCreated := 0, totalOrdersExecuted := 0 }

/-- part_014 storage where user 1 holds 5 units of token 10. -/
def loaFunded : LOAState :=
  { loaInit with deposits := upd2 (fun _ _ => (0 : Int)) 1 10 5 }

/-- part_014 storage with the mock price at 3500e18 and an active sell
    order of user 1 (id 0) at limit 3500e18 expiring at time 1000. -/
def loaDemo : LOAState :=
  { owner := 0, mockPrice := 3500 * 10 ^ 18,
    orders := upd2 (fun _ _ => LimitOrder.zero) 1 0
      { user := 1, tokenIn := 10, tokenOut := 20, amountIn := 100,
        limitPrice := 3500 * 10 ^ 18, expiresAt := 1000,
        isActive := true, isBuy := false },
    orderCount := upd (fun _ => 0) 1 1,
    authorizedSessions := fun _ _ => false, deposits := fun _ _ => 0,
    totalOrdersCreated := 1, totalOrdersExecuted := 0 }

/-- Fresh part_013 storage (no oracle configured, so the price is the
    fixed 3000e18 mock). -/
def l13Init : L13State :=
  { owner := 0, priceOracle := 0,
    orders := fun _ _ => LimitOrder.zero, orderCount := fun _ => 0,
    authorizedSessions := fun _ _ => false, deposits := fun _ _ => 0 }

/-- part_013 storage where user 1 holds 5 units of token 10. -/
def l13Funded : L13State :=
  { l13Init with deposits := upd2 (fun _ _ => (0 : Int)) 1 10 5 }

/-- part_013 storage with an active sell order of user 1 (id 0) at limit
    3000e18 expiring at time 1000. -/
def l13Demo : L13State :=
  { l13Init with
    orders := upd2 (fun _ _ => LimitOrder.zero) 1 0
      { user := 1, tokenIn := 10, tokenOut := 20, amountIn := 100,
        limitPrice := 3000 * 10 ^ 18, expiresAt := 1000,
        isActive := true, isBuy := false },
    orderCount := upd (fun _ => 0) 1 1 }

/- ===================== Helper lemmas ===================== -/

@[simp] theorem upd_self {κ α : Type} [DecidableEq κ] (f : κ → α) (k : κ) (v : α) :
    upd f k v k = v := by
  simp [upd]

theorem upd_ne {κ α : Type} [DecidableEq κ] (f : κ → α) (k x : κ) (v : α)
    (h : x ≠ k) : upd f k v x = f x := by
  simp [upd, h]

@[simp] theorem upd2_self {κ₁ κ₂ α : Type} [DecidableEq κ₁] [DecidableEq κ₂]
    (f : κ₁ → κ₂ → α) (k₁ : κ₁) (k₂ : κ₂) (v : α) :
    upd2 f k₁ k₂ v k₁ k₂ = v := by
  simp [upd2, upd]

theorem upd_nonneg {d : Addr → Int} {k : Addr} {v : Int}
    (hd : ∀ a, 0 ≤ d a) (hv : 0 ≤ v) : ∀ a, 0 ≤ upd d k v a := by
  intro a
  by_cases h : a = k
  · subst h; simpa using hv
  · simpa [upd_ne _ _ _ _ h] using hd a

theorem upd2_nonneg {d : Addr → Addr → Int} {k₁ k₂ : Addr} {v : Int}
    (hd : ∀ a t, 0 ≤ d a t) (hv : 0 ≤ v) : ∀ a t, 0 ≤ upd2 d k₁ k₂ v a t := by
  intro a t
  by_cases h1 : a = k₁
  · subst h1
    by_cases h2 : t = k₂
    · subst h2; simpa using hv
    · simpa [upd2, upd_ne _ _ _ _ h2] using hd a t
  · simpa [upd2, upd_ne _ _ _ _ h1] using hd a t

theorem AgentStep_inv (st : AgentState) (op : AgentOp) (h : AgentInv st) :
    AgentInv (AgentStep st op) := by
  cases op with
  | setThreshold s t =>
      simp only [AgentStep, Agent.setGasThreshold]
      split <;> exact h
  | deposit s v =>
      simp only [AgentStep, Agent.deposit]
      split
      · exact upd_nonneg h (add_nonneg (h s) (Int.natCast_nonneg v))
      · exact h
  | withdraw s a =>
      simp only [AgentStep, Agent.withdraw]
      split
      · split
        · next hle => exact upd_nonneg h (by linarith [hle])
        · exact h
      · exact h
  | authorize s x ts =>
      simp only [AgentStep, Agent.authorizeSession]
      split
      · exact h
      · split <;> exact h
  | revoke s x =>
      simp only [AgentStep, Agent.revokeSession]
      split <;> exact h
  | bridge s v u fee =>
      simp only [AgentStep, Agent.checkGasAndBridge]
      split
      · split
        · split
          · next hle =>
              split
              · exact upd_nonneg h (by linarith [hle])
              · exact h
          · exact h
        · exact h
      · exact h

theorem AgentRun_inv (st : AgentState) (ops : List AgentOp) (h : AgentInv st) :
    AgentInv (AgentRun st ops) := by
  induction ops generalizing st with
  | nil => exact h
  | cons op rest ih => exact ih _ (AgentStep_inv st op h)

theorem LOAStep_inv (st : LOAState) (op : LOAOp) (h : LOAInv st) :
    LOAInv (LOAStep st op) := by
  cases op with
  | deposit s v tk a ok =>
      simp only [LOAStep, LOA.deposit]
      split
      · split
        · exact upd2_nonneg h (add_nonneg (h s tk) (Int.natCast_nonneg v))
        · split
          · exact upd2_nonneg h (add_nonneg (h s tk) (Int.natCast_nonneg a))
          · exact h
      · exact h
  | withdraw s tk a =>
      simp only [LOAStep, LOA.withdraw]
      split
      · next hle =>
          split
          · exact upd2_nonneg h (by linarith [hle])
          · exact h
      · exact h
  | create s ts ti to_ ai lp dv b =>
      simp only [LOAStep, LOA.createLimitOrder]
      split
      · split
        · split
          · split
            · next hle => exact upd2_nonneg h (by linarith [hle])
            · exact h
          · exact h
        · exact h
      · exact h
  | cancel s oid =>
      simp only [LOAStep, LOA.cancelLimitOrder]
      split
      · split
        · exact upd2_nonneg h (add_nonneg (h _ _) (Int.natCast_nonneg _))
        · exact h
      · exact h
  | authorize s x =>
      simp only [LOAStep, LOA.authorizeSession]
      split
      · exact h
      · split <;> exact h
  | revoke s x =>
      simp only [LOAStep, LOA.revokeSession]
      split <;> exact h
  | execute s ts u oid =>
      simp only [LOAStep, LOA.executeLimitOrder]
      split
      · split
        · split
          · split
            · exact upd2_nonneg h (add_nonneg (h _ _) (Int.natCast_nonneg _))
            · exact h
          · exact h
        · exact h
      · exact h
  | recv s v =>
      simp only [LOAStep, LOA.receiveEth]
      exact upd2_nonneg h (add_nonneg (h s 0) (Int.natCast_nonneg v))
  | setPrice s p =>
      simp only [LOAStep, LOA.setMockPrice]
      split <;> exact h

theorem LOARun_inv (st : LOAState) (ops : List LOAOp) (h : LOAInv st) :
    LOAInv (LOARun st ops) := by
  induction ops generalizing st with
  | nil => exact h
  | cons op rest ih => exact ih _ (LOAStep_inv st op h)

/- ===================== Claims ===================== -/

/-- Claim C7: checkGas returns shouldTrigger = false whenever the
    threshold of the user is unset (zero), and in general shouldTrigger
    equals (threshold set) AND comparison(reading, threshold), where the
    comparison of this deployment is reading strictly below threshold. -/
theorem C7_trigger_unset (st : AgentState) (user : Addr) :
    ((Agent.checkGas st user).2 =
      (decide (0 < st.gasThresholds user) &&
       decide ((Agent.checkGas st user).1 < st.gasThresholds user))) ∧
    (st.gasThresholds user = 0 → (Agent.checkGas st user).2 = false) := by
  constructor
  · rfl
  · intro h
    simp [Agent.checkGas, h]

/-- Witness for C7 at a fresh state where user 1 has no threshold. -/
theorem C7_trigger_unset_witness : (Agent.checkGas agentInit 1).2 = false :=
  (C7_trigger_unset agentInit 1).2 rfl

/-- Claim C9: authorizing the same valid session twice succeeds both
    times, leaves the grant true after each call, and in Agent.sol (which
    stores a grant timestamp) the repeat call refreshes the stamp to the
    later time; the part_014 variant stores no timestamp but is likewise
    idempotent on the grant bit. -/
theorem C9_authorize_idempotent (st : AgentState) (lst : LOAState)
    (u s : Addr) (t1 t2 : Nat) (hs0 : s ≠ 0) (hsu : s ≠ u) :
    ((Agent.authorizeSession st u s t1).2 = none ∧
     (Agent.authorizeSession st u s t1).1.authorizedSessions u s = true ∧
     (Agent.authorizeSession st u s t1).1.sessionAuthorizedAt u s = t1 ∧
     (Agent.authorizeSession (Agent.authorizeSession st u s t1).1 u s t2).2 = none ∧
     (Agent.authorizeSession (Agent.authorizeSession st u s t1).1 u s t2).1.authorizedSessions u s = true ∧
     (Agent.authorizeSession (Agent.authorizeSession st u s t1).1 u s t2).1.sessionAuthorizedAt u s = t2) ∧
    ((LOA.authorizeSession lst u s).2 = none ∧
     (LOA.authorizeSession lst u s).1.authorizedSessions u s = true ∧
     (LOA.authorizeSession (LOA.authorizeSession lst u s).1 u s).2 = none ∧
     (LOA.authorizeSession (LOA.authorizeSession lst u s).1 u s).1.authorizedSessions u s = true) := by
  simp [Agent.authorizeSession, LOA.authorizeSession, hs0, hsu]

/-- Witness for C9: user 1 authorizes session 2 at times 5 and 9; the
    stored stamp ends at 9. -/
theorem C9_authorize_idempotent_witness :
    (Agent.authorizeSession (Agent.authorizeSession agentInit 1 2 5).1 1 2 9).1.sessionAuthorizedAt 1 2 = 9 :=
  (C9_authorize_idempotent agentInit loaInit 1 2 5 9 (by decide) (by decide)).1.2.2.2.2.2

/-- Claim C1 counterexample: with the trigger satisfied, caller equal to
    the user (both address 1) and no registry grant, checkGasAndBridge
    fails with CallerNotAuthorized, so caller == user does not satisfy
    its authorization check; and with an unset threshold the failure is
    the trigger error, so the trigger is evaluated before authorization,
    not after it. -/
theorem C1_counterexample :
    (Agent.checkGasAndBridge agentSelf 1 0 1 0).2.2 = some AgentErr.callerNotAuthorized ∧
    (Agent.checkGasAndBridge agentInit 1 0 1 0).2.2 = some AgentErr.noTrigger := by
  constructor <;> rfl

/-- Claim C1 (amended): both executeLimitOrder variants fail with the
    NotAuthorized error, before every other check and side effect,
    unless caller == user or the registry authorizes the caller for the
    user; checkGasAndBridge instead evaluates the trigger first and then
    requires a registry grant for the caller -- caller == user is not
    sufficient there -- still before any side effect. -/
theorem C1_authorization (lst : LOAState) (l13 : L13State) (ast : AgentState)
    (sender user : Addr) (ts orderId oraclePrice swapOut msgValue fee : Nat) :
    (¬(lst.authorizedSessions user sender = true ∨ sender = user) →
      LOA.executeLimitOrder lst sender ts user orderId = (lst, some .notAuthorized)) ∧
    (¬(l13.authorizedSessions user sender = true ∨ sender = user) →
      L13.executeLimitOrder l13 sender ts user orderId oraclePrice swapOut =
        (l13, some .notAuthorized)) ∧
    ((Agent.checkGas ast user).2 = false →
      Agent.checkGasAndBridge ast sender msgValue user fee = (ast, [], some .noTrigger)) ∧
    ((Agent.checkGas ast user).2 = true → ast.authorizedSessions user sender = false →
      Agent.checkGasAndBridge ast sender msgValue user fee =
        (ast, [], some .callerNotAuthorized)) := by
  refine ⟨?_, ?_, ?_, ?_⟩
  · intro h
    simp [LOA.executeLimitOrder, h]
  · intro h
    simp [L13.executeLimitOrder, h]
  · intro h
    simp [Agent.checkGasAndBridge, h]
  · intro h1 h2
    simp [Agent.checkGasAndBridge, h1, h2]

/-- Witness for C1 (amended), exercising all four conjuncts. -/
theorem C1_authorization_witness :
    LOA.executeLimitOrder loaInit 3 7 4 0 = (loaInit, some .notAuthorized) ∧
    L13.executeLimitOrder l13Init 3 7 4 0 0 0 = (l13Init, some .notAuthorized) ∧
    Agent.checkGasAndBridge agentInit 3 0 4 0 = (agentInit, [], some .noTrigger) ∧
    Agent.checkGasAndBridge agentDemo 3 0 1 0 = (agentDemo, [], some .callerNotAuthorized) :=
  ⟨(C1_authorization loaInit l13Init agentInit 3 4 7 0 0 0 0 0).1 (by decide),
   (C1_authorization loaInit l13Init agentInit 3 4 7 0 0 0 0 0).2.1 (by decide),
   (C1_authorization loaInit l13Init agentInit 3 4 7 0 0 0 0 0).2.2.1 (by decide),
   (C1_authorization loaInit l13Init agentDemo 3 1 7 0 0 0 0 0).2.2.2 (by decide) (by decide)⟩

/-- Claim C2: every failing run of checkGasAndBridge (whichever of the
    trigger, authorization, funds or fee checks rejected it) returns the
    unchanged state and performs no external action, and every successful
    run debits the user deposit by exactly 0.1 ether (1e17 wei), touches
    no other ledger or registry entry, and places the debit strictly
    before the transport send in the action order. -/
theorem C2_atomic_debit (st : AgentState) (sender : Addr) (msgValue user fee : Nat) :
    (∀ e, (Agent.checkGasAndBridge st sender msgValue user fee).2.2 = some e →
      Agent.checkGasAndBridge st sender msgValue user fee = (st, [], some e)) ∧
    ((Agent.checkGasAndBridge st sender msgValue user fee).2.2 = none →
      (Agent.checkGasAndBridge st sender msgValue user fee).1.deposits user =
        st.deposits user - amountToBridge ∧
      (∀ x, x ≠ user →
        (Agent.checkGasAndBridge st sender msgValue user fee).1.deposits x = st.deposits x) ∧
      (Agent.checkGasAndBridge st sender msgValue user fee).1.gasThresholds = st.gasThresholds ∧
      (Agent.checkGasAndBridge st sender msgValue user fee).1.authorizedSessions =
        st.authorizedSessions ∧
      (Agent.checkGasAndBridge st sender msgValue user fee).1.sessionAuthorizedAt =
        st.sessionAuthorizedAt ∧
      (∃ rest, (Agent.checkGasAndBridge st sender msgValue user fee).2.1 =
        BridgeAction.debit user amountToBridge :: BridgeAction.lzSend 40204 fee :: rest)) := by
  simp only [Agent.checkGasAndBridge]
  split
  · split
    · split
      · split
        · refine ⟨fun e he => by simp at he, fun _ => ⟨by simp, fun x hx => ?_, rfl, rfl, rfl, ?_⟩⟩
          · simp [upd_ne _ _ _ _ hx]
          · exact ⟨_, rfl⟩
        · exact ⟨fun e he => by simp only [Option.some.injEq] at he; exact he ▸ rfl,
                 fun hn => by simp at hn⟩
      · exact ⟨fun e he => by simp only [Option.some.injEq] at he; exact he ▸ rfl,
               fun hn => by simp at hn⟩
    · exact ⟨fun e he => by simp only [Option.some.injEq] at he; exact he ▸ rfl,
             fun hn => by simp at hn⟩
  · exact ⟨fun e he => by simp only [Option.some.injEq] at he; exact he ▸ rfl,
           fun hn => by simp at hn⟩

/-- Witness for C2: a successful bridge by session 2 for user 1 debits
    exactly 1e17 wei, and a failing run returns the state unchanged. -/
theorem C2_atomic_debit_witness :
    (Agent.checkGasAndBridge agentDemo 2 5 1 3).1.deposits 1 =
      agentDemo.deposits 1 - amountToBridge ∧
    Agent.checkGasAndBridge agentInit 2 0 1 0 = (agentInit, [], some AgentErr.noTrigger) :=
  ⟨((C2_atomic_debit agentDemo 2 5 1 3).2 (by decide)).1,
   (C2_atomic_debit agentInit 2 0 1 0).1 AgentErr.noTrigger (by decide)⟩

/-- Claim C3: in both variants, after a successful executeLimitOrder the
    order is inactive, and an immediate second call with the same caller
    and arguments fails with OrderNotActive and returns the state of the
    first call unchanged -- an order never executes twice on one trigger. -/
theorem C3_exactly_once (lst : LOAState) (l13 : L13State) (sender user : Addr)
    (ts orderId oraclePrice swapOut : Nat) :
    ((LOA.executeLimitOrder lst sender ts user orderId).2 = none →
      ((LOA.executeLimitOrder lst sender ts user orderId).1.orders user orderId).isActive = false ∧
      LOA.executeLimitOrder (LOA.executeLimitOrder lst sender ts user orderId).1
          sender ts user orderId =
        ((LOA.executeLimitOrder lst sender ts user orderId).1, some .orderNotActive)) ∧
    ((L13.executeLimitOrder l13 sender ts user orderId oraclePrice swapOut).2 = none →
      ((L13.executeLimitOrder l13 sender ts user orderId oraclePrice swapOut).1.orders
          user orderId).isActive = false ∧
      L13.executeLimitOrder
          (L13.executeLimitOrder l13 sender ts user orderId oraclePrice swapOut).1
          sender ts user orderId oraclePrice swapOut =
        ((L13.executeLimitOrder l13 sender ts user orderId oraclePrice swapOut).1,
         some .orderNotActive)) := by
  constructor
  · simp only [LOA.executeLimitOrder]
    split
    · next h1 =>
        split
        · split
          · split
            · intro _
              constructor
              · simp
              · simp [LOA.executeLimitOrder, h1]
            · intro h
              simp at h
          · intro h
            simp at h
        · intro h
          simp at h
    · intro h
      simp at h
  · simp only [L13.executeLimitOrder]
    split
    · next h1 =>
        split
        · split
          · split
            · intro _
              constructor
              · simp
              · simp [L13.executeLimitOrder, h1]
            · intro h
              simp at h
          · intro h
            simp at h
        · intro h
          simp at h
    · intro h
      simp at h

/-- Witness for C3: the demo sell orders execute once and are inactive
    afterwards. -/
theorem C3_exactly_once_witness :
    ((LOA.executeLimitOrder loaDemo 1 500 1 0).1.orders 1 0).isActive = false ∧
    ((L13.executeLimitOrder l13Demo 1 500 1 0 0 77).1.orders 1 0).isActive = false :=
  ⟨((C3_exactly_once loaDemo l13Demo 1 1 500 0 0 77).1 (by decide)).1,
   ((C3_exactly_once loaDemo l13Demo 1 1 500 0 0 77).2 (by decide)).1⟩

/-- Claim C4: no sequence of calls to contract Agent or to the part_014
    order book drives any deposit balance (per user, respectively per
    user and token) negative, and in both contracts a withdrawal of more
    than the balance is rejected with the insufficient-balance error and
    leaves the state unchanged rather than saturating the debit. -/
theorem C4_balance_invariant :
    (∀ (st : AgentState) (ops : List AgentOp), AgentInv st → AgentInv (AgentRun st ops)) ∧
    (∀ (st : LOAState) (ops : List LOAOp), LOAInv st → LOAInv (LOARun st ops)) ∧
    (∀ (st : AgentState) (sender : Addr) (amount : Nat),
      0 ≤ st.deposits sender → st.deposits sender < amount →
      Agent.withdraw st sender amount = (st, some .insufficientBalance)) ∧
    (∀ (st : LOAState) (sender token : Addr) (amount : Nat),
      st.deposits sender token < amount →
      LOA.withdraw st sender token amount = (st, [], some .insufficientBalance)) := by
  refine ⟨AgentRun_inv, LOARun_inv, ?_, ?_⟩
  · intro st sender amount h0 hlt
    have ha : (0 : Int) < amount := lt_of_le_of_lt h0 hlt
    have ha2 : 0 < amount := by exact_mod_cast ha
    have hn : ¬((amount : Int) ≤ st.deposits sender) := not_le.mpr hlt
    simp [Agent.withdraw, ha2, hn]
  · intro st sender token amount hlt
    have hn : ¬((amount : Int) ≤ st.deposits sender token) := not_le.mpr hlt
    simp [LOA.withdraw, hn]

/-- Witness for C4: a concrete run of each contract keeps the invariant,
    and an over-withdrawal on a fresh state is rejected unchanged. -/
theorem C4_balance_invariant_witness :
    AgentInv (AgentRun agentDemo
      [AgentOp.deposit 1 5, AgentOp.withdraw 1 3, AgentOp.bridge 2 5 1 3]) ∧
    LOAInv (LOARun loaInit [LOAOp.recv 1 9, LOAOp.withdraw 1 0 4]) ∧
    Agent.withdraw agentInit 1 5 = (agentInit, some .insufficientBalance) ∧
    LOA.withdraw loaInit 1 0 5 = (loaInit, [], some .insufficientBalance) :=
  ⟨C4_balance_invariant.1 agentDemo _
     (fun a => by by_cases h : a = 1 <;> simp [agentDemo, upd, h]),
   C4_balance_invariant.2.1 loaInit _ (fun a t => le_refl 0),
   C4_balance_invariant.2.2.1 agentInit 1 5 (le_refl 0) (by norm_num [agentInit]),
   C4_balance_invariant.2.2.2 loaInit 1 0 5 (by norm_num [loaInit])⟩

/-- Claim C5 counterexample: in the part_013 variant no grant for
    (user 1, session 2) exists, yet revokeSession reports no error -- a
    silent no-op, contrary to the claim that revoking an ungranted
    session always fails with a NotAuthorized error. -/
theorem C5_counterexample :
    l13Init.authorizedSessions 1 2 = false ∧
    (L13.revokeSession l13Init 1 2).2 = none :=
  ⟨rfl, rfl⟩

/-- Claim C5 (amended): in Agent.sol and in the part_014 variant,
    revokeSession fails with the session-not-authorized error and
    changes nothing when no true grant exists, and clears the grant
    otherwise; the part_013 variant instead never fails -- it
    unconditionally writes the grant false. -/
theorem C5_revoke (ast : AgentState) (lst : LOAState) (l13 : L13State) (u s : Addr) :
    (ast.authorizedSessions u s = false →
      Agent.revokeSession ast u s = (ast, some .sessionNotAuthorized)) ∧
    (ast.authorizedSessions u s = true →
      (Agent.revokeSession ast u s).2 = none ∧
      (Agent.revokeSession ast u s).1.authorizedSessions u s = false) ∧
    (lst.authorizedSessions u s = false →
      LOA.revokeSession lst u s = (lst, some .sessionNotAuthorized)) ∧
    (lst.authorizedSessions u s = true →
      (LOA.revokeSession lst u s).2 = none ∧
      (LOA.revokeSession lst u s).1.authorizedSessions u s = false) ∧
    ((L13.revokeSession l13 u s).2 = none ∧
     (L13.revokeSession l13 u s).1.authorizedSessions u s = false) := by
  refine ⟨?_, ?_, ?_, ?_, ?_, ?_⟩
  · intro h
    simp [Agent.revokeSession, h]
  · intro h
    simp [Agent.revokeSession, h]
  · intro h
    simp [LOA.revokeSession, h]
  · intro h
    simp [LOA.revokeSession, h]
  · simp [L13.revokeSession]
  · simp [L13.revokeSession]

/-- Witness for C5 (amended): revoke of the granted session 2 of user 1
    succeeds in Agent.sol, and revoke of an ungranted one fails there. -/
theorem C5_revoke_witness :
    (Agent.revokeSession agentDemo 1 2).1.authorizedSessions 1 2 = false ∧
    Agent.revokeSession agentInit 1 2 = (agentInit, some .sessionNotAuthorized) ∧
    LOA.revokeSession loaInit 1 2 = (loaInit, some .sessionNotAuthorized) ∧
    (L13.revokeSession l13Init 4 9).1.authorizedSessions 4 9 = false :=
  ⟨((C5_revoke agentDemo loaInit l13Init 1 2).2.1 (by decide)).2,
   (C5_revoke agentInit loaInit l13Init 1 2).1 (by decide),
   (C5_revoke agentInit loaInit l13Init 1 2).2.2.1 (by decide),
   (C5_revoke agentInit loaInit l13Init 4 9).2.2.2.2.2⟩

/-- Full specification of part_014 createLimitOrder: success condition,
    no change on failure, and the success effects. -/
theorem loaCreate_spec (lst : LOAState) (sender : Addr) (ts : Nat)
    (tokenIn tokenOut : Addr) (amountIn limitPrice daysValid : Nat) (isBuy : Bool) :
    ((LOA.createLimitOrder lst sender ts tokenIn tokenOut amountIn limitPrice daysValid isBuy).2.2
        = none ↔
      (0 < amountIn ∧ 0 < limitPrice ∧ (0 < daysValid ∧ daysValid ≤ 365) ∧
        (amountIn : Int) ≤ lst.deposits sender tokenIn)) ∧
    ((LOA.createLimitOrder lst sender ts tokenIn tokenOut amountIn limitPrice daysValid isBuy).2.2
        ≠ none →
      (LOA.createLimitOrder lst sender ts tokenIn tokenOut amountIn limitPrice daysValid isBuy).1
        = lst) ∧
    ((LOA.createLimitOrder lst sender ts tokenIn tokenOut amountIn limitPrice daysValid isBuy).2.2
        = none →
      (LOA.createLimitOrder lst sender ts tokenIn tokenOut amountIn limitPrice daysValid isBuy).2.1
        = some (lst.orderCount sender) ∧
      (LOA.createLimitOrder lst sender ts tokenIn tokenOut amountIn limitPrice daysValid isBuy).1.deposits
          sender tokenIn = lst.deposits sender tokenIn - amountIn ∧
      (LOA.createLimitOrder lst sender ts tokenIn tokenOut amountIn limitPrice daysValid isBuy).1.orders
          sender (lst.orderCount sender) =
        { user := sender, tokenIn := tokenIn, tokenOut := tokenOut, amountIn := amountIn,
          limitPrice := limitPrice, expiresAt := ts + daysValid * 86400,
          isActive := true, isBuy := isBuy }) := by
  simp only [LOA.createLimitOrder]
  split
  · next h1 =>
      split
      · next h2 =>
          split
          · next h3 =>
              split
              · next h4 => simp [h1, h2, h3, h4]
              · next h4 => simp [h1, h2, h3, h4]
          · next h3 => simp [h1, h2, h3]
      · next h2 => simp [h1, h2]
  · next h1 => simp [h1]

/-- Full specification of part_013 createLimitOrder: success condition
    (note: no daysValid validation), no change on failure, and the
    success effects. -/
theorem l13Create_spec (l13 : L13State) (sender : Addr) (ts : Nat)
    (tokenIn tokenOut : Addr) (amountIn limitPrice daysValid : Nat) (isBuy : Bool) :
    ((L13.createLimitOrder l13 sender ts tokenIn tokenOut amountIn limitPrice daysValid isBuy).2.2
        = none ↔
      (0 < amountIn ∧ 0 < limitPrice ∧ (amountIn : Int) ≤ l13.deposits sender tokenIn)) ∧
    ((L13.createLimitOrder l13 sender ts tokenIn tokenOut amountIn limitPrice daysValid isBuy).2.2
        ≠ none →
      (L13.createLimitOrder l13 sender ts tokenIn tokenOut amountIn limitPrice daysValid isBuy).1
        = l13) ∧
    ((L13.createLimitOrder l13 sender ts tokenIn tokenOut amountIn limitPrice daysValid isBuy).2.2
        = none →
      (L13.createLimitOrder l13 sender ts tokenIn tokenOut amountIn limitPrice daysValid isBuy).1.deposits
          sender tokenIn = l13.deposits sender tokenIn - amountIn ∧
      (L13.createLimitOrder l13 sender ts tokenIn tokenOut amountIn limitPrice daysValid isBuy).1.orders
          sender (l13.orderCount sender) =
        { user := sender, tokenIn := tokenIn, tokenOut := tokenOut, amountIn := amountIn,
          limitPrice := limitPrice, expiresAt := ts + daysValid * 86400,
          isActive := true, isBuy := isBuy }) := by
  simp only [L13.createLimitOrder]
  split
  · next h1 =>
      split
      · next h2 =>
          split
          · next h3 => simp [h1, h2, h3]
          · next h3 => simp [h1, h2, h3]
      · next h2 => simp [h1, h2]
  · next h1 => simp [h1]

/-- Claim C6 counterexample: the part_013 createLimitOrder accepts a
    validity of 400 days (outside 0 < validity_days <= 365) and creates
    the order anyway, because this variant never validates daysValid. -/
theorem C6_counterexample :
    (L13.createLimitOrder l13Funded 1 0 10 20 5 7 400 false).2.2 = none ∧
    ((L13.createLimitOrder l13Funded 1 0 10 20 5 7 400 false).1.orders 1 0).isActive = true := by
  constructor <;> rfl

/-- Claim C6 (amended): part_014 createLimitOrder succeeds exactly when
    amountIn > 0, limitPrice > 0, 0 < daysValid <= 365 and the
    (sender, tokenIn) deposit covers amountIn; any failure changes
    nothing, and success locks exactly amountIn by debiting that deposit
    and stores the order active under the next id with expiry
    now + daysValid days.  The part_013 variant behaves the same except
    that it performs no daysValid validation at all. -/
theorem C6_create_order (lst : LOAState) (l13 : L13State) (sender : Addr) (ts : Nat)
    (tokenIn tokenOut : Addr) (amountIn limitPrice daysValid : Nat) (isBuy : Bool) :
    ((LOA.createLimitOrder lst sender ts tokenIn tokenOut amountIn limitPrice daysValid isBuy).2.2
        = none ↔
      (0 < amountIn ∧ 0 < limitPrice ∧ (0 < daysValid ∧ daysValid ≤ 365) ∧
        (amountIn : Int) ≤ lst.deposits sender tokenIn)) ∧
    ((LOA.createLimitOrder lst sender ts tokenIn tokenOut amountIn limitPrice daysValid isBuy).2.2
        ≠ none →
      (LOA.createLimitOrder lst sender ts tokenIn tokenOut amountIn limitPrice daysValid isBuy).1
        = lst) ∧
    ((LOA.createLimitOrder lst sender ts tokenIn tokenOut amountIn limitPrice daysValid isBuy).2.2
        = none →
      (LOA.createLimitOrder lst sender ts tokenIn tokenOut amountIn limitPrice daysValid isBuy).2.1
        = some (lst.orderCount sender) ∧
      (LOA.createLimitOrder lst sender ts tokenIn tokenOut amountIn limitPrice daysValid isBuy).1.deposits
          sender tokenIn = lst.deposits sender tokenIn - amountIn ∧
      (LOA.createLimitOrder lst sender ts tokenIn tokenOut amountIn limitPrice daysValid isBuy).1.orders
          sender (lst.orderCount sender) =
        { user := sender, tokenIn := tokenIn, tokenOut := tokenOut, amountIn := amountIn,
          limitPrice := limitPrice, expiresAt := ts + daysValid * 86400,
          isActive := true, isBuy := isBuy }) ∧
    ((L13.createLimitOrder l13 sender ts tokenIn tokenOut amountIn limitPrice daysValid isBuy).2.2
        = none ↔
      (0 < amountIn ∧ 0 < limitPrice ∧ (amountIn : Int) ≤ l13.deposits sender tokenIn)) ∧
    ((L13.createLimitOrder l13 sender ts tokenIn tokenOut amountIn limitPrice daysValid isBuy).2.2
        ≠ none →
      (L13.createLimitOrder l13 sender ts tokenIn tokenOut amountIn limitPrice daysValid isBuy).1
        = l13) ∧
    ((L13.createLimitOrder l13 sender ts tokenIn tokenOut amountIn limitPrice daysValid isBuy).2.2
        = none →
      (L13.createLimitOrder l13 sender ts tokenIn tokenOut amountIn limitPrice daysValid isBuy).1.deposits
          sender tokenIn = l13.deposits sender tokenIn - amountIn ∧
      (L13.createLimitOrder l13 sender ts tokenIn tokenOut amountIn limitPrice daysValid isBuy).1.orders
          sender (l13.orderCount sender) =
        { user := sender, tokenIn := tokenIn, tokenOut := tokenOut, amountIn := amountIn,
          limitPrice := limitPrice, expiresAt := ts + daysValid * 86400,
          isActive := true, isBuy := isBuy }) :=
  ⟨(loaCreate_spec lst sender ts tokenIn tokenOut amountIn limitPrice daysValid isBuy).1,
   (loaCreate_spec lst sender ts tokenIn tokenOut amountIn limitPrice daysValid isBuy).2.1,
   (loaCreate_spec lst sender ts tokenIn tokenOut amountIn limitPrice daysValid isBuy).2.2,
   (l13Create_spec l13 sender ts tokenIn tokenOut amountIn limitPrice daysValid isBuy).1,
   (l13Create_spec l13 sender ts tokenIn tokenOut amountIn limitPrice daysValid isBuy).2.1,
   (l13Create_spec l13 sender ts tokenIn tokenOut amountIn limitPrice daysValid isBuy).2.2⟩

/-- Witness for C6 (amended): a valid 30-day order is created on
    part_014 and debits the lock; a zero-amount attempt changes nothing;
    the part_013 success effects hold for the 400-day order. -/
theorem C6_create_order_witness :
    (LOA.createLimitOrder loaFunded 1 0 10 20 5 7 30 false).2.1 = some 0 ∧
    (LOA.createLimitOrder loaFunded 1 100 10 20 0 7 30 false).1 = loaFunded ∧
    (L13.createLimitOrder l13Funded 1 0 10 20 5 7 400 false).1.deposits 1 10 =
      l13Funded.deposits 1 10 - 5 :=
  ⟨((C6_create_order loaFunded l13Funded 1 0 10 20 5 7 30 false).2.2.1 (by decide)).1,
   (C6_create_order loaFunded l13Funded 1 100 10 20 0 7 30 false).2.1 (by decide),
   ((C6_create_order loaFunded l13Funded 1 0 10 20 5 7 400 false).2.2.2.2.2 (by decide)).1⟩

/-- Claim C8: in both variants, an order created with 7-day validity is
    refused 8 days later: executeLimitOrder by an authorized caller (or
    the user) fails with OrderExpired and returns the post-creation
    state unchanged, regardless of the price condition. -/
theorem C8_order_expired (lst : LOAState) (l13 : L13State) (sender caller : Addr)
    (t0 : Nat) (tokenIn tokenOut : Addr) (amountIn limitPrice : Nat) (isBuy : Bool)
    (oraclePrice swapOut : Nat) :
    ((LOA.createLimitOrder lst sender t0 tokenIn tokenOut amountIn limitPrice 7 isBuy).2.2
        = none →
      (lst.authorizedSessions sender caller = true ∨ caller = sender) →
      LOA.executeLimitOrder
          (LOA.createLimitOrder lst sender t0 tokenIn tokenOut amountIn limitPrice 7 isBuy).1
          caller (t0 + 8 * 86400) sender (lst.orderCount sender) =
        ((LOA.createLimitOrder lst sender t0 tokenIn tokenOut amountIn limitPrice 7 isBuy).1,
         some .orderExpired)) ∧
    ((L13.createLimitOrder l13 sender t0 tokenIn tokenOut amountIn limitPrice 7 isBuy).2.2
        = none →
      (l13.authorizedSessions sender caller = true ∨ caller = sender) →
      L13.executeLimitOrder
          (L13.createLimitOrder l13 sender t0 tokenIn tokenOut amountIn limitPrice 7 isBuy).1
          caller (t0 + 8 * 86400) sender (l13.orderCount sender) oraclePrice swapOut =
        ((L13.createLimitOrder l13 sender t0 tokenIn tokenOut amountIn limitPrice 7 isBuy).1,
         some .orderExpired)) := by
  constructor
  · simp only [LOA.createLimitOrder]
    split
    · split
      · split
        · split
          · intro _ hauth
            simp only [LOA.executeLimitOrder]
            rw [if_pos (by simpa using hauth), if_pos (by simp), if_neg (by simp)]
          · intro h
            simp at h
        · intro h
          simp at h
      · intro h
        simp at h
    · intro h
      simp at h
  · simp only [L13.createLimitOrder]
    split
    · split
      · split
        · intro _ hauth
          simp only [L13.executeLimitOrder]
          rw [if_pos (by simpa using hauth), if_pos (by simp), if_neg (by simp)]
        · intro h
          simp at h
      · intro h
        simp at h
    · intro h
      simp at h

/-- Witness for C8: 7-day orders created at time 0 on funded states are
    rejected as expired at time 8 * 86400. -/
theorem C8_order_expired_witness :
    LOA.executeLimitOrder (LOA.createLimitOrder loaFunded 1 0 10 20 5 7 7 false).1
        1 (8 * 86400) 1 0 =
      ((LOA.createLimitOrder loaFunded 1 0 10 20 5 7 7 false).1, some .orderExpired) ∧
    L13.executeLimitOrder (L13.createLimitOrder l13Funded 1 0 10 20 5 7 7 false).1
        1 (8 * 86400) 1 0 0 0 =
      ((L13.createLimitOrder l13Funded 1 0 10 20 5 7 7 false).1, some .orderExpired) :=
  ⟨(C8_order_expired loaFunded l13Funded 1 1 0 10 20 5 7 false 0 0).1
     (by decide) (Or.inr rfl),
   (C8_order_expired loaFunded l13Funded 1 1 0 10 20 5 7 false 0 0).2
     (by decide) (Or.inr rfl)⟩

/-- Claim C10: part_014 deposit with attached native value credits
    msg.value -- not the amount argument -- to the (sender, token) slot
    for any token address, performs no token-contract call, and uses the
    amount argument only through its positivity check; the bare receive
    path credits msg.value to the (sender, address 0) slot. -/
theorem C10_native_deposit (st : LOAState) (sender token : Addr)
    (msgValue a₁ a₂ : Nat) (ok₁ ok₂ : Bool)
    (hv : 0 < msgValue) (h₁ : 0 < a₁) (h₂ : 0 < a₂) :
    LOA.deposit st sender msgValue token a₁ ok₁ =
      ({ st with deposits := (upd2 st.deposits sender token (st.deposits sender token + msgValue)) },
       [], none) ∧
    LOA.deposit st sender msgValue token a₁ ok₁ =
      LOA.deposit st sender msgValue token a₂ ok₂ ∧
    (LOA.receiveEth st sender msgValue).deposits sender 0 =
      st.deposits sender 0 + msgValue := by
  refine ⟨?_, ?_, ?_⟩
  · simp [LOA.deposit, hv, h₁]
  · simp [LOA.deposit, hv, h₁, h₂]
  · simp [LOA.receiveEth]

/-- Witness for C10: value 5 attached to a deposit call on token 10 is
    credited identically for amount arguments 3 and 9. -/
theorem C10_native_deposit_witness :
    LOA.deposit loaInit 1 5 10 3 true = LOA.deposit loaInit 1 5 10 9 false :=
  (C10_native_deposit loaInit 1 10 5 3 9 true false (by decide) (by decide) (by decide)).2.1
